import Mathlib

/-!
Shallow embedding of `src/main.py` of win32-python3-global-password-helper.

The program registers one Win32 global hot key (id 0, Ctrl+Alt+Shift+P),
runs a GetMessage/TranslateMessage/DispatchMessage loop, and on each
WM_HOTKEY message with wParam 0 shows a modal list dialog and copies the
selected credential's password to the clipboard in CF_TEXT and
CF_UNICODETEXT.

Effects are modelled as an explicit trace of `Event`s together with a
`Clipboard` state; Python exceptions are the `Except PyExc` error channel.
Outcomes of external Win32/pywin32 calls (dialog result, clipboard call
success) are inputs: `ActivationEnv` for one hot-key activation, `World`
for a whole run of `main`.
-/

set_option autoImplicit false

namespace GPH

/-- `@dataclasses.dataclass class Credential` (src/main.py lines 67-71). -/
structure Credential where
  username : String
  password : String
deriving DecidableEq, Repr

/-- The two clipboard formats used: `win32clipboard.CF_TEXT` and
`win32clipboard.CF_UNICODETEXT`. -/
inductive ClipFormat where
  | CF_TEXT
  | CF_UNICODETEXT
deriving DecidableEq, Repr

/-- State of the system clipboard as far as the program touches it:
whether this process holds it open, and the content slot for each of the
two formats the program writes. -/
structure Clipboard where
  isOpen : Bool
  cfText : Option String
  cfUnicode : Option String
deriving DecidableEq, Repr

/-- Observable effects of the program, in order of occurrence. -/
inductive Event where
  | printLine (s : String)
  | logMsg (s : String)
  | showDialog (labels : List String)
  | openClipboard
  | setClipboardText (fmt : ClipFormat) (s : String)
  | closeClipboard
  | messageBox (text : String)
  | registerHotKey (id mods vk : Nat) (ok : Bool)
  | unregisterHotKey (id : Nat)
  | getMessage
  | translateMessage (message wParam : Nat)
  | dispatchMessage (message wParam : Nat)
deriving DecidableEq, Repr

/-- Python exceptions that can unwind out of the modelled code. -/
inductive PyExc where
  | exception (msg : String)
  | winError (api : String)
  | indexError
  | systemExit (code : Nat)
  | osError (msg : String)
  | jsonDecodeError (msg : String)
deriving DecidableEq, Repr

/-- The two fields of `ctypes.wintypes.MSG` that the loop reads. -/
structure Msg where
  message : Nat
  wParam : Nat
deriving DecidableEq, Repr

/-- `win32con.WM_HOTKEY` (0x0312). -/
def WM_HOTKEY : Nat := 786

/-- `win32con.MOD_ALT + win32con.MOD_CONTROL + win32con.MOD_SHIFT`
(1 + 2 + 4, src/main.py line 131). -/
def MOD_ALT_CONTROL_SHIFT : Nat := 7

/-- `ord("P")` (src/main.py line 132 with HOT_KEY = "P"). -/
def ORD_HOT_KEY : Nat := 80

/-- Outcomes of the external calls made during one hot-key activation:
the modal dialog (`ListDialog`/`DoModal`) and the three clipboard calls. -/
structure ActivationEnv where
  promptRaises : Bool
  promptResult : Option Nat
  openClipboardOk : Bool
  setTextOk : Bool
  setUnicodeOk : Bool
deriving DecidableEq, Repr

/-- `hot_key_callback` (src/main.py lines 78-102).  Shows the modal list
dialog; on cancel logs and returns; on a selected index looks up the
credential (Python raises IndexError when out of bounds), opens the
clipboard, writes CF_TEXT then CF_UNICODETEXT, and closes the clipboard
in a `finally` so the close happens even when a write raises.  A raising
call propagates as `.error`. -/
def hot_key_callback (env : ActivationEnv) (cred_list : List Credential)
    (cb : Clipboard) : Except PyExc Unit × List Event × Clipboard :=
  let username_list := cred_list.map (fun c => c.username)
  if env.promptRaises then
    (.error (.winError ("ListDialog")), [.showDialog username_list], cb)
  else
    match env.promptResult with
    | none =>
        (.ok (), [.showDialog username_list,
                  .logMsg ("Win32 dialog cancelled with escape key -- do nothing")], cb)
    | some index =>
        match cred_list[index]? with
        | none => (.error .indexError, [.showDialog username_list], cb)
        | some cred =>
            if env.openClipboardOk then
              let cb1 : Clipboard := { cb with isOpen := true }
              if env.setTextOk then
                let cb2 : Clipboard := { cb1 with cfText := some cred.password }
                if env.setUnicodeOk then
                  let cb3 : Clipboard := { cb2 with cfUnicode := some cred.password }
                  (.ok (), [.showDialog username_list, .openClipboard,
                            .setClipboardText .CF_TEXT cred.password,
                            .setClipboardText .CF_UNICODETEXT cred.password,
                            .closeClipboard,
                            .logMsg ("Win32 dialog selected username: " ++ cred.username
                                     ++ ": Password copied to clipboard")],
                   { cb3 with isOpen := false })
                else
                  (.error (.winError ("SetClipboardText")),
                   [.showDialog username_list, .openClipboard,
                    .setClipboardText .CF_TEXT cred.password, .closeClipboard],
                   { cb2 with isOpen := false })
              else
                (.error (.winError ("SetClipboardText")),
                 [.showDialog username_list, .openClipboard, .closeClipboard],
                 { cb1 with isOpen := false })
            else
              (.error (.winError ("OpenClipboard")), [.showDialog username_list], cb)

/-- Helper for `readlines`: accumulate the current line (reversed). -/
def readlinesAux : List Char → List Char → List (List Char)
  | [], acc => if acc = [] then [] else [acc.reverse]
  | c :: rest, acc =>
      if c = '\n' then (acc.reverse ++ ['\n']) :: readlinesAux rest []
      else readlinesAux rest (c :: acc)

/-- Python `fh.readlines()` (src/main.py line 45): split the file content
into lines, each keeping its trailing newline; a final fragment without a
newline is its own line. -/
def readlines (content : List Char) : List (List Char) :=
  readlinesAux content []

/-- `re.compile("#.*$").sub("", line)` (src/main.py lines 49-53) applied to
one `readlines` line (which contains no newline except possibly as its
last character): if the line contains a `#`, everything from the first `#`
up to the end of the line is removed, keeping a trailing newline; a line
without `#` is unchanged. -/
def regexSubCommentEol (line : List Char) : List Char :=
  if ('#' : Char) ∈ line then
    line.takeWhile (fun c => c ≠ '#')
      ++ (if line.getLast? = some '\n' then ['\n'] else [])
  else line

/-- `read_nqjson_file` (src/main.py lines 39-57), as a pure function of the
file content: strip the comment from every line, then re-join
(`"".join(json_line_list)`).  Reading the file itself is the `World`'s
`fileRead` oracle. -/
def read_nqjson_file (content : List Char) : List Char :=
  ((readlines content).map regexSubCommentEol).flatten

/-- One element of the JSON `credential_list` array as `main` consumes it:
`cdict["username"]` and `cdict["password"]` (src/main.py line 119). -/
structure CredEntry where
  username : String
  password : String
deriving DecidableEq, Repr

/-- The decoded JSON configuration as `main` consumes it:
`config["credential_list"]` (src/main.py lines 61, 119). -/
structure Config where
  credential_list : List CredEntry
deriving DecidableEq, Repr

/-- Number of occurrences of `u` in `l` — `collections.Counter` count. -/
def countOcc (l : List String) (u : String) : Nat :=
  (l.filter (fun v => v = u)).length

/-- The keys of `collections.Counter(l)` in first-occurrence order (dict
insertion order): each distinct element of `l`, once, ordered by first
occurrence. -/
def counterKeys (l : List String) : List String :=
  l.foldl (fun acc v => if v ∈ acc then acc else acc ++ [v]) []

/-- Quote character CPython `repr` picks for a `str`: a single quote
(U+0027), unless the string contains a single quote and no double quote
(U+0022), in which case a double quote. -/
def pyReprQuote (s : String) : Char :=
  if Char.ofNat 39 ∈ s.data ∧ Char.ofNat 34 ∉ s.data then Char.ofNat 34
  else Char.ofNat 39

/-- Lowercase hexadecimal digit, as in CPython's `\xXX` escapes. -/
def hexDigit (n : Nat) : Char :=
  if n < 10 then Char.ofNat (48 + n) else Char.ofNat (87 + n)

/-- How CPython `repr` renders one character of a `str`, given the chosen
quote: escape the backslash and the quote itself; render tab, newline and
carriage return as two-character escapes; render the other characters
below U+0020 and the non-printable range U+007F..U+00A0 as `\xXX`; pass
every other character through.  (CPython also `\x`/`\u`-escapes the
non-printable code points above U+00A0; those do not occur in the data
this development evaluates, and the pass-through matches CPython for all
printable characters.) -/
def pyEscapeChar (quote : Char) (c : Char) : List Char :=
  if c = Char.ofNat 92 then [Char.ofNat 92, Char.ofNat 92]
  else if c = quote then [Char.ofNat 92, quote]
  else if c = Char.ofNat 9 then [Char.ofNat 92, 't']
  else if c = Char.ofNat 10 then [Char.ofNat 92, 'n']
  else if c = Char.ofNat 13 then [Char.ofNat 92, 'r']
  else if c.toNat < 32 ∨ (127 ≤ c.toNat ∧ c.toNat ≤ 160) then
    [Char.ofNat 92, 'x', hexDigit (c.toNat / 16), hexDigit (c.toNat % 16)]
  else [c]

/-- CPython `repr` of a `str`, as used when a string list is interpolated
into an f-string (src/main.py line 64): the chosen quote around the
escaped rendering of each character. -/
def pyReprStr (s : String) : String :=
  String.mk (pyReprQuote s
    :: (s.data.map (pyEscapeChar (pyReprQuote s))).flatten ++ [pyReprQuote s])

/-- Comma-space join, as in Python `str` of a list. -/
def pyJoinComma : List String → String
  | [] => ""
  | [s] => s
  | s :: rest@(_ :: _) => s ++ ", " ++ pyJoinComma rest

/-- Python `str` of a list of strings, e.g. `['alice']`, as produced by
`f"Duplicate username(s): {dupe_username_list}"`. -/
def pyReprStrList (l : List String) : String :=
  "[" ++ pyJoinComma (l.map pyReprStr) ++ "]"

/-- `dupe_username_list` (src/main.py lines 61-62): the usernames occurring
more than once in `credential_list`, in first-occurrence order. -/
def dupeUsernameList (config : Config) : List String :=
  let usernames := config.credential_list.map (fun c => c.username)
  (counterKeys usernames).filter (fun u => 1 < countOcc usernames u)

/-- `assert_no_dupe_username` (src/main.py lines 60-64): raise
`Exception(f"Duplicate username(s): {dupe_username_list}")` when any
username repeats. -/
def assert_no_dupe_username (config : Config) : Except PyExc Unit :=
  let dupes := dupeUsernameList config
  if dupes.length > 0 then
    .error (.exception ("Duplicate username(s): " ++ pyReprStrList dupes))
  else .ok ()

/-- The lines printed by `show_help_then_exit` (src/main.py lines 22-35),
with `argv0` standing for `sys.argv[0]`. -/
def usageLines (argv0 : String) (error : Option String) : List Event :=
  (match error with
   | some e => [Event.printLine ("ERROR: " ++ e)]
   | none => ([] : List Event)) ++
  [Event.printLine ("Usage: " ++ argv0 ++ " JSON_CONFIG_FILE"),
   Event.printLine ("Global Password Helper"),
   Event.printLine ("Registers Win32 global hot key (Ctrl+Alt+Shift+P)"),
   Event.printLine ("Press Win32 global hot key to display dialog with list of usernames (or descriptions)"),
   Event.printLine ("Select username to copy password to clipboard"),
   Event.printLine ("Ctrl+V to paste password from clipboard to system password dialog"),
   Event.printLine (""),
   Event.printLine ("Required Arguments:"),
   Event.printLine ("    JSON_CONFIG_FILE: File path to JSON config"),
   Event.printLine ("        Ex: C:\\src\\pw.json")]

/-- `show_help_then_exit` (src/main.py lines 22-36): print the optional
error line and the usage text, then `sys.exit(1)`. -/
def show_help_then_exit (argv0 : String) (error : Option String) :
    Except PyExc Unit × List Event :=
  (.error (.systemExit 1), usageLines argv0 error)

/-- Everything outside the process that a run of `main` consults:
the argument vector (`sys.argv`, so index 0 is the program name),
`os.path.abspath`, the file system read, the external `json.loads`
decoder, whether `RegisterHotKey` succeeds, the messages `GetMessageA`
delivers before it returns 0, and the environment of the k-th hot-key
activation. -/
structure World where
  argv : List String
  abspath : String → String
  fileRead : String → Except PyExc (List Char)
  jsonLoads : List Char → Except PyExc Config
  registerHotKeyOk : Bool
  msgs : List Msg
  acts : Nat → ActivationEnv

/-- The `while GetMessageA(...) != 0` loop (src/main.py lines 136-143):
for each delivered message, when `msg.message == WM_HOTKEY` and
`hot_key_index == msg.wParam` (hot_key_index = 0) run `hot_key_callback`,
then `TranslateMessage` and `DispatchMessageA`; when the message list is
exhausted `GetMessageA` returns 0 and the loop exits.  `k` counts the
activations already handled (selecting the `ActivationEnv`); an exception
from the handler unwinds out of the loop. -/
def loop (acts : Nat → ActivationEnv) (cred_list : List Credential) :
    List Msg → Nat → Clipboard → Except PyExc Unit × List Event × Clipboard
  | [], _, cb => (.ok (), [.getMessage], cb)
  | m :: rest, k, cb =>
      if m.message = WM_HOTKEY ∧ m.wParam = 0 then
        let h := hot_key_callback (acts k) cred_list cb
        match h.1 with
        | .ok _ =>
            let res := loop acts cred_list rest (k + 1) h.2.2
            (res.1,
             .getMessage :: h.2.1
               ++ [.translateMessage m.message m.wParam,
                   .dispatchMessage m.message m.wParam]
               ++ res.2.1,
             res.2.2)
        | .error e => (.error e, .getMessage :: h.2.1, h.2.2)
      else
        let res := loop acts cred_list rest k cb
        (res.1,
         .getMessage :: .translateMessage m.message m.wParam
           :: .dispatchMessage m.message m.wParam :: res.2.1,
         res.2.2)

/-- `main` (src/main.py lines 107-145).  `print()`; argument checks
(note: the help flags are compared against `argv[0]`, the program name);
read and comment-strip the config; `json.loads`; duplicate-username
check; startup `MessageBox`; `RegisterHotKey` (raising on failure); then
the message loop inside `try/finally` whose finaliser calls
`UnregisterHotKey(None, 0)`. -/
def main (w : World) (cb : Clipboard) :
    Except PyExc Unit × List Event × Clipboard :=
  if w.argv.length ≠ 2 then
    ((show_help_then_exit (w.argv.headD "")
        (some ("Missing requirement argument: JSON_CONFIG_FILE"))).1,
     Event.printLine ("")
       :: (show_help_then_exit (w.argv.headD "")
             (some ("Missing requirement argument: JSON_CONFIG_FILE"))).2,
     cb)
  else if w.argv.headD "" ∈ (["/?", "-h", "--help"] : List String) then
    ((show_help_then_exit (w.argv.headD "") none).1,
     Event.printLine ("") :: (show_help_then_exit (w.argv.headD "") none).2,
     cb)
  else
    match w.fileRead (w.abspath (w.argv.getD 1 "")) with
    | .error e => (.error e, [Event.printLine ("")], cb)
    | .ok content =>
        match w.jsonLoads (read_nqjson_file content) with
        | .error e => (.error e, [Event.printLine ("")], cb)
        | .ok config =>
            match assert_no_dupe_username config with
            | .error e => (.error e, [Event.printLine ("")], cb)
            | .ok _ =>
                if w.registerHotKeyOk then
                  ((loop w.acts (config.credential_list.map
                      (fun c => Credential.mk c.username c.password)) w.msgs 0 cb).1,
                   [Event.printLine (""),
                    Event.messageBox ("Loaded "
                      ++ toString (config.credential_list.map
                           (fun c => Credential.mk c.username c.password)).length
                      ++ " credentials from " ++ w.abspath (w.argv.getD 1 "")
                      ++ "\n\nGlobal hot key: Ctrl+Alt+Shift+P"),
                    Event.registerHotKey 0 MOD_ALT_CONTROL_SHIFT ORD_HOT_KEY true]
                     ++ (loop w.acts (config.credential_list.map
                          (fun c => Credential.mk c.username c.password)) w.msgs 0 cb).2.1
                     ++ [Event.unregisterHotKey 0],
                   (loop w.acts (config.credential_list.map
                      (fun c => Credential.mk c.username c.password)) w.msgs 0 cb).2.2)
                else
                  (.error (.exception ("Failed: user32.RegisterHotKey()")),
                   [Event.printLine (""),
                    Event.messageBox ("Loaded "
                      ++ toString (config.credential_list.map
                           (fun c => Credential.mk c.username c.password)).length
                      ++ " credentials from " ++ w.abspath (w.argv.getD 1 "")
                      ++ "\n\nGlobal hot key: Ctrl+Alt+Shift+P"),
                    Event.registerHotKey 0 MOD_ALT_CONTROL_SHIFT ORD_HOT_KEY false],
                   cb)

/-! Helper lemmas about the handler's and the loop's event traces. -/

theorem hkc_no_getMessage (env : ActivationEnv) (creds : List Credential)
    (cb : Clipboard) : Event.getMessage ∉ (hot_key_callback env creds cb).2.1 := by
  unfold hot_key_callback
  repeat' split
  all_goals simp

theorem hkc_no_unregister (env : ActivationEnv) (creds : List Credential)
    (cb : Clipboard) (i : Nat) :
    Event.unregisterHotKey i ∉ (hot_key_callback env creds cb).2.1 := by
  unfold hot_key_callback
  repeat' split
  all_goals simp

theorem loop_no_unregister (acts : Nat → ActivationEnv) (creds : List Credential)
    (msgs : List Msg) : ∀ (k : Nat) (cb : Clipboard),
    Event.unregisterHotKey 0 ∉ (loop acts creds msgs k cb).2.1 := by
  induction msgs with
  | nil => intro k cb; simp [loop]
  | cons m rest ih =>
      intro k cb
      simp only [loop]
      split
      · split
        · have hh := hkc_no_unregister (acts k) creds cb 0
          have hi := ih (k + 1) (hot_key_callback (acts k) creds cb).2.2
          simp [hh, hi]
        · have hh := hkc_no_unregister (acts k) creds cb 0
          simp [hh]
      · have hi := ih k cb
        simp [hi]

/-- Claim C4: for every activation in which the selection prompt is
cancelled (returns None), the handler logs and returns without touching
the clipboard — the clipboard state after the activation equals its state
before — and no error is raised. -/
theorem cancel_leaves_clipboard_unchanged (env : ActivationEnv)
    (creds : List Credential) (cb : Clipboard)
    (hpr : env.promptRaises = false) (hres : env.promptResult = none) :
    hot_key_callback env creds cb
      = (.ok (), [Event.showDialog (creds.map (fun c => c.username)),
                  Event.logMsg ("Win32 dialog cancelled with escape key -- do nothing")],
         cb) := by
  unfold hot_key_callback
  rw [hpr, hres]
  simp

/-- Claim C4 witness: with the two-record table and an activation whose
prompt is cancelled, the handler returns normally, only logs, and leaves
the clipboard exactly as it was. -/
theorem cancel_leaves_clipboard_unchanged_witness :
    hot_key_callback ⟨false, none, true, true, true⟩
        [⟨"alice", "p1"⟩, ⟨"bob", "p2"⟩] ⟨false, some ("old"), none⟩
      = (.ok (), [Event.showDialog ["alice", "bob"],
                  Event.logMsg ("Win32 dialog cancelled with escape key -- do nothing")],
         ⟨false, some ("old"), none⟩) :=
  cancel_leaves_clipboard_unchanged _ _ _ rfl rfl

/-- Claim C3: for every credential table and every in-bounds index
returned by the selection prompt, the handler opens the clipboard, writes
the selected record's password as CF_TEXT and CF_UNICODETEXT inside that
single open/close session, and closes the clipboard unconditionally —
the traces of all three write outcomes (both writes succeed, the first
write raises, the second write raises) each contain exactly one open and
one close, and the final clipboard is not left open. -/
theorem clipboard_both_encodings (env : ActivationEnv)
    (creds : List Credential) (cb : Clipboard) (i : Nat) (cred : Credential)
    (hpr : env.promptRaises = false)
    (hres : env.promptResult = some i)
    (hget : creds[i]? = some cred)
    (hoc : env.openClipboardOk = true) :
    (hot_key_callback env creds cb).2.2.isOpen = false
    ∧ (env.setTextOk = true → env.setUnicodeOk = true →
        (hot_key_callback env creds cb).1 = .ok ()
        ∧ (hot_key_callback env creds cb).2.2.cfText = some cred.password
        ∧ (hot_key_callback env creds cb).2.2.cfUnicode = some cred.password
        ∧ (hot_key_callback env creds cb).2.1
            = [Event.showDialog (creds.map (fun c => c.username)),
               Event.openClipboard,
               Event.setClipboardText .CF_TEXT cred.password,
               Event.setClipboardText .CF_UNICODETEXT cred.password,
               Event.closeClipboard,
               Event.logMsg ("Win32 dialog selected username: " ++ cred.username
                             ++ ": Password copied to clipboard")])
    ∧ (env.setTextOk = false →
        (hot_key_callback env creds cb).1 = .error (.winError ("SetClipboardText"))
        ∧ (hot_key_callback env creds cb).2.1
            = [Event.showDialog (creds.map (fun c => c.username)),
               Event.openClipboard, Event.closeClipboard])
    ∧ (env.setTextOk = true → env.setUnicodeOk = false →
        (hot_key_callback env creds cb).1 = .error (.winError ("SetClipboardText"))
        ∧ (hot_key_callback env creds cb).2.2.cfText = some cred.password
        ∧ (hot_key_callback env creds cb).2.1
            = [Event.showDialog (creds.map (fun c => c.username)),
               Event.openClipboard,
               Event.setClipboardText .CF_TEXT cred.password,
               Event.closeClipboard]) := by
  obtain ⟨pr, res, oc, st, su⟩ := env
  simp only at hpr hres hoc
  subst hpr hres hoc
  unfold hot_key_callback
  cases st <;> cases su <;> simp [hget]

/-- Claim C3 witness (Scenario A): table `[("alice","p1"), ("bob","p2")]`,
prompt returns index 1, all clipboard calls succeed — both encodings end
up holding "p2" and the clipboard is closed again. -/
theorem clipboard_both_encodings_witness :
    (hot_key_callback ⟨false, some 1, true, true, true⟩
        [⟨"alice", "p1"⟩, ⟨"bob", "p2"⟩] ⟨false, none, none⟩).2.2.cfText = some ("p2")
    ∧ (hot_key_callback ⟨false, some 1, true, true, true⟩
        [⟨"alice", "p1"⟩, ⟨"bob", "p2"⟩] ⟨false, none, none⟩).2.2.cfUnicode = some ("p2")
    ∧ (hot_key_callback ⟨false, some 1, true, true, true⟩
        [⟨"alice", "p1"⟩, ⟨"bob", "p2"⟩] ⟨false, none, none⟩).2.2.isOpen = false := by
  have h := clipboard_both_encodings ⟨false, some 1, true, true, true⟩
    [⟨"alice", "p1"⟩, ⟨"bob", "p2"⟩] ⟨false, none, none⟩ 1 ⟨"bob", "p2"⟩
    rfl rfl rfl rfl
  exact ⟨(h.2.1 rfl rfl).2.1, (h.2.1 rfl rfl).2.2.1, h.1⟩

/-- Claim C2 counterexample: when OpenClipboard raises, the handler does
NOT return normally and does NOT log — the exception propagates (its only
trace event is the dialog), and the loop given a second queued hot-key
message stops after the first activation instead of continuing to listen.
The clipboard, never having been acquired, is unchanged. -/
theorem open_clipboard_failure_counterexample :
    hot_key_callback ⟨false, some 0, false, true, true⟩
        [⟨"alice", "p1"⟩] ⟨false, none, none⟩
      = (.error (.winError ("OpenClipboard")), [Event.showDialog ["alice"]],
         ⟨false, none, none⟩)
    ∧ (hot_key_callback ⟨false, some 0, false, true, true⟩
        [⟨"alice", "p1"⟩] ⟨false, none, none⟩).1 ≠ .ok ()
    ∧ (loop (fun _ => ⟨false, some 0, false, true, true⟩) [⟨"alice", "p1"⟩]
        [⟨WM_HOTKEY, 0⟩, ⟨WM_HOTKEY, 0⟩] 0 ⟨false, none, none⟩).2.1
      = [Event.getMessage, Event.showDialog ["alice"]] := by
  refine ⟨rfl, fun h => Except.noConfusion h, rfl⟩

/-- Claim C2 amended: for every activation in which OpenClipboard raises
while an in-bounds index was selected, no clipboard resource is left open
(the clipboard state is unchanged), but the handler does not catch the
failure and logs nothing: the exception propagates out of the dispatch
loop, which stops fetching messages (the hot key is still unregistered by
main's finally; see the C1 theorem). -/
theorem open_clipboard_failure_propagates (acts : Nat → ActivationEnv)
    (creds : List Credential) (cb : Clipboard) (m : Msg) (rest : List Msg)
    (i : Nat) (cred : Credential)
    (hm : m.message = WM_HOTKEY) (hw : m.wParam = 0)
    (hpr : (acts 0).promptRaises = false)
    (hres : (acts 0).promptResult = some i)
    (hget : creds[i]? = some cred)
    (hoc : (acts 0).openClipboardOk = false) :
    loop acts creds (m :: rest) 0 cb
      = (.error (.winError ("OpenClipboard")),
         [Event.getMessage, Event.showDialog (creds.map (fun c => c.username))],
         cb) := by
  have hhkc : hot_key_callback (acts 0) creds cb
      = (.error (.winError ("OpenClipboard")),
         [Event.showDialog (creds.map (fun c => c.username))], cb) := by
    unfold hot_key_callback
    simp [hpr, hres, hget, hoc]
  simp only [loop, hm, hw, and_self, if_true, hhkc]

/-- Claim C2 amended witness: concrete activation with OpenClipboard
failing — the error propagates out of the loop with the clipboard
untouched. -/
theorem open_clipboard_failure_propagates_witness :
    loop (fun _ => ⟨false, some 0, false, true, true⟩) [⟨"alice", "p1"⟩]
        [⟨WM_HOTKEY, 0⟩] 0 ⟨false, none, none⟩
      = (.error (.winError ("OpenClipboard")),
         [Event.getMessage, Event.showDialog ["alice"]], ⟨false, none, none⟩) :=
  open_clipboard_failure_propagates _ _ _ _ _ 0 ⟨"alice", "p1"⟩ rfl rfl rfl rfl rfl rfl

/-- Claim C8: dispatch routing of the event loop.  For a hot-key message
with the registered id 0 the handler runs synchronously: its entire event
trace (which never contains a message fetch) sits contiguously after the
one `getMessage`, and only after it returns normally do translate/dispatch
and the rest of the loop follow; if the handler raises, nothing follows
it.  For any other message the handler is not invoked: the message is
handed to TranslateMessage/DispatchMessageA and the loop continues with
unchanged activation counter and clipboard. -/
theorem loop_dispatch_routing (acts : Nat → ActivationEnv)
    (creds : List Credential) (m : Msg) (rest : List Msg) (k : Nat)
    (cb : Clipboard) :
    ((m.message = WM_HOTKEY ∧ m.wParam = 0) →
      Event.getMessage ∉ (hot_key_callback (acts k) creds cb).2.1
      ∧ ((hot_key_callback (acts k) creds cb).1 = .ok () →
          loop acts creds (m :: rest) k cb
            = ((loop acts creds rest (k + 1) (hot_key_callback (acts k) creds cb).2.2).1,
               Event.getMessage :: (hot_key_callback (acts k) creds cb).2.1
                 ++ [Event.translateMessage m.message m.wParam,
                     Event.dispatchMessage m.message m.wParam]
                 ++ (loop acts creds rest (k + 1) (hot_key_callback (acts k) creds cb).2.2).2.1,
               (loop acts creds rest (k + 1) (hot_key_callback (acts k) creds cb).2.2).2.2))
      ∧ (∀ e, (hot_key_callback (acts k) creds cb).1 = .error e →
          loop acts creds (m :: rest) k cb
            = (.error e, Event.getMessage :: (hot_key_callback (acts k) creds cb).2.1,
               (hot_key_callback (acts k) creds cb).2.2)))
    ∧ (¬(m.message = WM_HOTKEY ∧ m.wParam = 0) →
        loop acts creds (m :: rest) k cb
          = ((loop acts creds rest k cb).1,
             Event.getMessage :: Event.translateMessage m.message m.wParam
               :: Event.dispatchMessage m.message m.wParam
               :: (loop acts creds rest k cb).2.1,
             (loop acts creds rest k cb).2.2)) := by
  constructor
  · intro hkey
    refine ⟨hkc_no_getMessage _ _ _, ?_, ?_⟩
    · intro hok
      simp only [loop, hkey.1, hkey.2, and_self, if_true, hok]
    · intro e herr
      simp only [loop, hkey.1, hkey.2, and_self, if_true, herr]
  · intro hkey
    simp only [loop, if_neg hkey]

/-- Claim C8 witness: a hot-key message with id 0 runs the handler before
anything else (here it is cancelled, so translate/dispatch and loop exit
follow), and a plain keyboard message (WM_KEYDOWN = 256) is only
translated and dispatched, with no dialog shown. -/
theorem loop_dispatch_routing_witness :
    (loop (fun _ => ⟨false, none, true, true, true⟩) [⟨"alice", "p1"⟩]
        [⟨WM_HOTKEY, 0⟩] 0 ⟨false, none, none⟩).2.1
      = [Event.getMessage, Event.showDialog ["alice"],
         Event.logMsg ("Win32 dialog cancelled with escape key -- do nothing"),
         Event.translateMessage WM_HOTKEY 0, Event.dispatchMessage WM_HOTKEY 0,
         Event.getMessage]
    ∧ (loop (fun _ => ⟨false, none, true, true, true⟩) [⟨"alice", "p1"⟩]
        [⟨256, 1⟩] 0 ⟨false, none, none⟩).2.1
      = [Event.getMessage, Event.translateMessage 256 1,
         Event.dispatchMessage 256 1, Event.getMessage] := by
  constructor
  · have h := (loop_dispatch_routing (fun _ => ⟨false, none, true, true, true⟩)
      [⟨"alice", "p1"⟩] ⟨WM_HOTKEY, 0⟩ [] 0 ⟨false, none, none⟩).1 ⟨rfl, rfl⟩
    rw [h.2.1 rfl]
    rfl
  · have h := (loop_dispatch_routing (fun _ => ⟨false, none, true, true, true⟩)
      [⟨"alice", "p1"⟩] ⟨256, 1⟩ [] 0 ⟨false, none, none⟩).2 (by decide)
    rw [h]
    rfl

/-! Duplicate-username machinery. -/

theorem main_register_ok_eq (w : World) (cb : Clipboard) (content : List Char)
    (config : Config)
    (h2 : w.argv.length = 2)
    (hh : w.argv.headD "" ∉ (["/?", "-h", "--help"] : List String))
    (hfr : w.fileRead (w.abspath (w.argv.getD 1 "")) = .ok content)
    (hjl : w.jsonLoads (read_nqjson_file content) = .ok config)
    (hnd : dupeUsernameList config = [])
    (hreg : w.registerHotKeyOk = true) :
    main w cb =
      ((loop w.acts (config.credential_list.map
          (fun c => Credential.mk c.username c.password)) w.msgs 0 cb).1,
       Event.printLine ("")
         :: Event.messageBox ("Loaded "
              ++ toString (config.credential_list.map
                   (fun c => Credential.mk c.username c.password)).length
              ++ " credentials from " ++ w.abspath (w.argv.getD 1 "")
              ++ "\n\nGlobal hot key: Ctrl+Alt+Shift+P")
         :: Event.registerHotKey 0 MOD_ALT_CONTROL_SHIFT ORD_HOT_KEY true
         :: ((loop w.acts (config.credential_list.map
               (fun c => Credential.mk c.username c.password)) w.msgs 0 cb).2.1
             ++ [Event.unregisterHotKey 0]),
       (loop w.acts (config.credential_list.map
          (fun c => Credential.mk c.username c.password)) w.msgs 0 cb).2.2) := by
  unfold main
  rw [if_neg (by simp [h2]), if_neg hh, hfr]
  dsimp only
  rw [hjl]
  dsimp only
  rw [show assert_no_dupe_username config = .ok () by
    simp [assert_no_dupe_username, hnd]]
  dsimp only
  rw [hreg, if_pos rfl]
  simp

theorem main_register_fail_eq (w : World) (cb : Clipboard) (content : List Char)
    (config : Config)
    (h2 : w.argv.length = 2)
    (hh : w.argv.headD "" ∉ (["/?", "-h", "--help"] : List String))
    (hfr : w.fileRead (w.abspath (w.argv.getD 1 "")) = .ok content)
    (hjl : w.jsonLoads (read_nqjson_file content) = .ok config)
    (hnd : dupeUsernameList config = [])
    (hreg : w.registerHotKeyOk = false) :
    main w cb =
      (.error (.exception ("Failed: user32.RegisterHotKey()")),
       [Event.printLine (""),
        Event.messageBox ("Loaded "
          ++ toString (config.credential_list.map
               (fun c => Credential.mk c.username c.password)).length
          ++ " credentials from " ++ w.abspath (w.argv.getD 1 "")
          ++ "\n\nGlobal hot key: Ctrl+Alt+Shift+P"),
        Event.registerHotKey 0 MOD_ALT_CONTROL_SHIFT ORD_HOT_KEY false],
       cb) := by
  unfold main
  rw [if_neg (by simp [h2]), if_neg hh, hfr]
  dsimp only
  rw [hjl]
  dsimp only
  rw [show assert_no_dupe_username config = .ok () by
    simp [assert_no_dupe_username, hnd]]
  dsimp only
  rw [hreg, if_neg (by simp)]

theorem last_once_of_shape {α : Type} [DecidableEq α] (a b c : α) (L : List α)
    (u : α) (hu1 : u ≠ a) (hu2 : u ≠ b) (hu3 : u ≠ c) (hL : u ∉ L) :
    (a :: b :: c :: (L ++ [u])).getLast? = some u
    ∧ u ∉ (a :: b :: c :: (L ++ [u])).dropLast := by
  have hshape : a :: b :: c :: (L ++ [u]) = (a :: b :: c :: L) ++ [u] := by simp
  rw [hshape, List.getLast?_concat, List.dropLast_concat]
  refine ⟨rfl, ?_⟩
  simp only [List.mem_cons, not_or]
  exact ⟨hu1, hu2, hu3, hL⟩

/-- Claim C1: on every execution path that reaches the dispatch loop —
normal exit because the OS message source reports quit, or an unhandled
fault that unwinds out of the loop (including one raised inside the
hot-key handler) — `UnregisterHotKey` for the registered id 0 is the last
recorded action of `main`, and it occurs nowhere earlier in the trace:
exactly once, after the loop is left, before `main` terminates. -/
theorem main_unregisters_exactly_once (w : World) (cb : Clipboard)
    (content : List Char) (config : Config)
    (h2 : w.argv.length = 2)
    (hh : w.argv.headD "" ∉ (["/?", "-h", "--help"] : List String))
    (hfr : w.fileRead (w.abspath (w.argv.getD 1 "")) = .ok content)
    (hjl : w.jsonLoads (read_nqjson_file content) = .ok config)
    (hnd : dupeUsernameList config = [])
    (hreg : w.registerHotKeyOk = true) :
    (main w cb).2.1.getLast? = some (Event.unregisterHotKey 0)
    ∧ Event.unregisterHotKey 0 ∉ (main w cb).2.1.dropLast := by
  rw [main_register_ok_eq w cb content config h2 hh hfr hjl hnd hreg]
  dsimp only
  exact last_once_of_shape _ _ _ _ _ (by simp) (by simp) (by simp)
    (loop_no_unregister w.acts _ w.msgs 0 cb)

/-- Configuration with two distinct usernames, used by several runs. -/
def okConfig : Config := ⟨[⟨"alice", "p1"⟩, ⟨"bob", "p2"⟩]⟩

/-- A run that reaches the loop and then faults inside the hot-key
handler: one hot-key message, and its activation's OpenClipboard raises. -/
def faultWorld : World :=
  { argv := ["main.py", "pw.json"]
  , abspath := fun p => p
  , fileRead := fun _ => .ok []
  , jsonLoads := fun _ => .ok okConfig
  , registerHotKeyOk := true
  , msgs := [⟨WM_HOTKEY, 0⟩]
  , acts := fun _ => ⟨false, some 0, false, true, true⟩ }

/-- Claim C1 witness: in the concrete run whose single activation faults
(OpenClipboard raises mid-dispatch), the hot key is still unregistered
exactly once, as the final action before `main` terminates. -/
theorem main_unregisters_exactly_once_witness :
    (main faultWorld ⟨false, none, none⟩).2.1.getLast?
        = some (Event.unregisterHotKey 0)
    ∧ Event.unregisterHotKey 0 ∉ (main faultWorld ⟨false, none, none⟩).2.1.dropLast :=
  main_unregisters_exactly_once faultWorld ⟨false, none, none⟩ [] okConfig
    rfl (by decide) rfl rfl (by decide) rfl

/-- Claim C6: if `RegisterHotKey` reports failure at startup, `main`
terminates with the exception "Failed: user32.RegisterHotKey()", the
dispatch loop is never entered (no message is ever fetched, translated or
dispatched), and `UnregisterHotKey` is never attempted. -/
theorem register_failure_no_loop_no_unregister (w : World) (cb : Clipboard)
    (content : List Char) (config : Config)
    (h2 : w.argv.length = 2)
    (hh : w.argv.headD "" ∉ (["/?", "-h", "--help"] : List String))
    (hfr : w.fileRead (w.abspath (w.argv.getD 1 "")) = .ok content)
    (hjl : w.jsonLoads (read_nqjson_file content) = .ok config)
    (hnd : dupeUsernameList config = [])
    (hreg : w.registerHotKeyOk = false) :
    (main w cb).1 = .error (.exception ("Failed: user32.RegisterHotKey()"))
    ∧ Event.getMessage ∉ (main w cb).2.1
    ∧ (∀ i, Event.unregisterHotKey i ∉ (main w cb).2.1)
    ∧ (∀ a b, Event.translateMessage a b ∉ (main w cb).2.1)
    ∧ (main w cb).2.2 = cb := by
  have hm := main_register_fail_eq w cb content config h2 hh hfr hjl hnd hreg
  rw [hm]
  refine ⟨rfl, by simp, ?_, ?_, rfl⟩
  · intro i
    simp
  · intro a b
    simp

/-- Scenario D: the hot-key combination is already held, so
`RegisterHotKey` fails. -/
def scenarioDWorld : World :=
  { argv := ["main.py", "pw.json"]
  , abspath := fun p => p
  , fileRead := fun _ => .ok []
  , jsonLoads := fun _ => .ok okConfig
  , registerHotKeyOk := false
  , msgs := []
  , acts := fun _ => ⟨false, none, true, true, true⟩ }

/-- Claim C6 witness (Scenario D): registration failure yields the fatal
registration exception with no message fetched and no unregister call. -/
theorem register_failure_no_loop_no_unregister_witness :
    (main scenarioDWorld ⟨false, none, none⟩).1
        = .error (.exception ("Failed: user32.RegisterHotKey()"))
    ∧ Event.getMessage ∉ (main scenarioDWorld ⟨false, none, none⟩).2.1
    ∧ Event.unregisterHotKey 0 ∉ (main scenarioDWorld ⟨false, none, none⟩).2.1 := by
  have h := register_failure_no_loop_no_unregister scenarioDWorld ⟨false, none, none⟩
    [] okConfig rfl (by decide) rfl rfl (by decide) rfl
  exact ⟨h.1, h.2.1, h.2.2.1 0⟩

/-- A run invoked as `python main.py --help`: argv has the program name
at index 0 and "--help" as the single positional argument; no file named
"--help" exists. -/
def helpArgWorld : World :=
  { argv := ["main.py", "--help"]
  , abspath := fun p => p
  , fileRead := fun _ => .error (.osError ("No such file or directory: --help"))
  , jsonLoads := fun _ => .error (.jsonDecodeError (""))
  , registerHotKeyOk := true
  , msgs := []
  , acts := fun _ => ⟨false, none, true, true, true⟩ }

/-- A run invoked as `python main.py` with no argument at all. -/
def noArgWorld : World :=
  { argv := ["main.py"]
  , abspath := fun p => p
  , fileRead := fun _ => .error (.osError ("unused"))
  , jsonLoads := fun _ => .error (.jsonDecodeError (""))
  , registerHotKeyOk := true
  , msgs := []
  , acts := fun _ => ⟨false, none, true, true, true⟩ }

/-- Claim C7, code bug: the code compares the help flags against
`argv[0]` (the program name, since `main` is called with `sys.argv`)
instead of the positional argument `argv[1]`.  Passing "--help" as the
single positional argument therefore does NOT print usage and does NOT
exit with status 1: the run proceeds to treat "--help" as a config path
and dies on the file-read error.  A missing argument, in contrast, does
print usage and exit with status 1 as the claim states. -/
theorem help_flag_checked_against_argv0 :
    main helpArgWorld ⟨false, none, none⟩
      = (.error (.osError ("No such file or directory: --help")),
         [Event.printLine ("")], ⟨false, none, none⟩)
    ∧ (main helpArgWorld ⟨false, none, none⟩).1 ≠ .error (.systemExit 1)
    ∧ main noArgWorld ⟨false, none, none⟩
      = (.error (.systemExit 1),
         [Event.printLine ("")] ++ usageLines ("main.py")
           (some ("Missing requirement argument: JSON_CONFIG_FILE")),
         ⟨false, none, none⟩) := by
  refine ⟨rfl, fun h => ?_, rfl⟩
  exact PyExc.noConfusion (Except.error.inj h)

/-! Comment stripping. -/

theorem readlinesAux_flatten (s : List Char) : ∀ acc : List Char,
    (readlinesAux s acc).flatten = acc.reverse ++ s := by
  induction s with
  | nil =>
      intro acc
      unfold readlinesAux
      split
      · rename_i hacc
        subst hacc
        simp
      · simp
  | cons c rest ih =>
      intro acc
      unfold readlinesAux
      split
      · rename_i hc
        subst hc
        simp [ih]
      · rw [ih (c :: acc)]
        simp

theorem readlines_flatten (content : List Char) :
    (readlines content).flatten = content := by
  unfold readlines
  rw [readlinesAux_flatten]
  simp

theorem takeWhile_of_no_hash (a : List Char) (b : List Char)
    (h : ('#' : Char) ∉ a) :
    (a ++ '#' :: b).takeWhile (fun c => c ≠ '#') = a := by
  induction a with
  | nil => simp [List.takeWhile_cons]
  | cons x xs ih =>
      have hx : x ≠ '#' := fun hx => h (by rw [hx]; exact List.mem_cons_self _ _)
      have hxs : ('#' : Char) ∉ xs := fun hm => h (List.mem_cons_of_mem _ hm)
      rw [List.cons_append, List.takeWhile_cons, if_pos (by simp [hx]), ih hxs]

theorem no_hash_in_takeWhile (l : List Char) :
    ('#' : Char) ∉ l.takeWhile (fun c => c ≠ '#') := by
  induction l with
  | nil => simp
  | cons c rest ih =>
      rw [List.takeWhile_cons]
      by_cases hc : c = '#'
      · subst hc
        rw [if_neg (by simp)]
        simp
      · rw [if_pos (by simp [hc])]
        intro hmem
        rcases List.mem_cons.mp hmem with h | h
        · exact hc h.symm
        · exact ih h

theorem no_hash_in_regexSub (line : List Char) :
    ('#' : Char) ∉ regexSubCommentEol line := by
  unfold regexSubCommentEol
  split
  · intro hmem
    rcases List.mem_append.mp hmem with h | h
    · exact no_hash_in_takeWhile line h
    · split at h <;> simp_all
  · rename_i h
    exact h

/-- Claim C9: the comment-stripping step treats each line independently.
`readlines` decomposes the file exactly (flattening the lines restores
the content); `read_nqjson_file` is the concatenation of the per-line
transforms; a line without `#` is unchanged; and in a line containing
`#`, everything from the first `#` to the end of the line is removed
(the trailing newline, when present, survives, since Python's `$`
matches just before it). -/
theorem comment_strip_per_line (content : List Char) :
    (readlines content).flatten = content
    ∧ read_nqjson_file content
        = ((readlines content).map regexSubCommentEol).flatten
    ∧ (∀ line : List Char, ('#' : Char) ∉ line → regexSubCommentEol line = line)
    ∧ (∀ a b : List Char, ('#' : Char) ∉ a →
        regexSubCommentEol (a ++ '#' :: b)
          = a ++ (if (a ++ '#' :: b).getLast? = some '\n' then ['\n'] else [])) := by
  refine ⟨readlines_flatten content, rfl, ?_, ?_⟩
  · intro line h
    unfold regexSubCommentEol
    rw [if_neg h]
  · intro a b h
    unfold regexSubCommentEol
    rw [if_pos (by simp), takeWhile_of_no_hash a b h]

/-- Claim C9 witness: a line without `#` passes through unchanged, and in
`ab#c\n` the stripper removes `#c` while keeping the newline. -/
theorem comment_strip_per_line_witness :
    regexSubCommentEol (("abc\n").toList) = ("abc\n").toList
    ∧ regexSubCommentEol (("ab").toList ++ '#' :: ("c\n").toList)
        = ("ab").toList ++ ['\n'] := by
  have h := comment_strip_per_line []
  constructor
  · exact h.2.2.1 (("abc\n").toList) (by decide)
  · have h4 := h.2.2.2 (("ab").toList) (("c\n").toList) (by decide)
    simpa using h4

/-- Claim C10 (implicit): the comment stripper cannot distinguish a `#`
inside a JSON string literal from a comment marker — no `#` character at
all survives into the text handed to the JSON decoder, so any
configuration file whose username or password value contains `#` is
decoded from text that differs from the file (truncated at that `#`),
yielding either a changed credential or a JSON parse failure. -/
theorem hash_never_reaches_json_decoder (content : List Char) :
    ('#' : Char) ∉ read_nqjson_file content
    ∧ (('#' : Char) ∈ content → read_nqjson_file content ≠ content) := by
  have h1 : ('#' : Char) ∉ read_nqjson_file content := by
    unfold read_nqjson_file
    intro hmem
    rw [List.mem_flatten] at hmem
    obtain ⟨l, hl, hcl⟩ := hmem
    rw [List.mem_map] at hl
    obtain ⟨line, hline, rfl⟩ := hl
    exact no_hash_in_regexSub line hcl
  exact ⟨h1, fun hc heq => h1 (by rw [heq]; exact hc)⟩

/-- Claim C10 witness: for a config whose password value contains `#`,
the decoder input has lost the `#` and everything after it on that line,
so it differs from the file text. -/
theorem hash_never_reaches_json_decoder_witness :
    ('#' : Char) ∉ read_nqjson_file (("\x7b\"username\": \"u\", \"password\": \"a#b\"\x7d").toList)
    ∧ read_nqjson_file (("\x7b\"username\": \"u\", \"password\": \"a#b\"\x7d").toList)
        ≠ ("\x7b\"username\": \"u\", \"password\": \"a#b\"\x7d").toList := by
  have h := hash_never_reaches_json_decoder
    (("\x7b\"username\": \"u\", \"password\": \"a#b\"\x7d").toList)
  exact ⟨h.1, h.2 (by decide)⟩

end GPH
